import Mathlib

/-!
# Volume attribute sampling of the Cycles kernel (`intern/cycles/kernel/geom/geom_volume.h`)

A shallow embedding of the three functions of `geom_volume.h`

* `volume_image_texture_3d`
* `volume_normalized_position`
* `volume_attribute_float`, `volume_attribute_float3`

together with the properties the specification states about them.

Conventions of the embedding.

* `float` is a type parameter `F`.  The file only moves floats around, writes the literal
  `0.0f` and calls `average`; the statements below therefore hold for any interpretation of
  the float operations.  Concrete evaluations are done over `ℚ`.
* The preprocessor selection (`__KERNEL_CUDA__`, `__CUDA_ARCH__`, `__KERNEL_OPENCL__`) is a
  `BuildConfig` value and every `#if` is an `if` on it, in the order of the source.  The whole
  file is under `#ifdef __VOLUME__`; the embedding describes a build where it is defined.
* Everything the file calls but does not define (attribute lookup, object transforms, the
  texture and voxel samplers, the named constants) is a field of `Externals`.
* `volume_image_texture_3d` returns an unassigned local when no `case` matches; that is `none`.
* The nullable out-parameters `dx`, `dy` are `Option`s: `none` is the null pointer, `some v`
  is storage holding `v` before the call.  The result record carries their content afterwards.
-/

namespace Cycles

/-- Three floats, the kernel type `float3`. -/
structure float3 (F : Type) where
  x : F
  y : F
  z : F
deriving DecidableEq, Repr

/-- Four floats, the kernel type `float4`. -/
structure float4 (F : Type) where
  x : F
  y : F
  z : F
  w : F
deriving DecidableEq, Repr

/-- Modelled from the spec: `Transform` is declared outside `geom_volume.h`; the spec calls it
a 4×4 affine matrix.  It is kept as four rows and only ever handed to `transform_point`. -/
structure Transform (F : Type) where
  x : float4 F
  y : float4 F
  z : float4 F
  w : float4 F
deriving DecidableEq, Repr

/-- Modelled from the spec: `AttributeDescriptor` is declared outside `geom_volume.h`; the spec
gives it an opaque `offset` handle.  `offset` is the only field this file reads; whatever else
the descriptor carries is the number `other`. -/
structure AttributeDescriptor where
  offset : Int
  other : Nat
deriving DecidableEq, Repr

/-- Modelled from the spec: `ShaderData` is declared outside `geom_volume.h`; the spec gives the
shading point a position `P` and a `flag` bitset.  These are the two fields this file reads
(`ccl_fetch(sd, P)`, `sd->flag`); the rest of the shading point, which only the collaborators
see, is the number `other`. -/
structure ShaderData (F : Type) where
  P : float3 F
  flag : Nat
  other : Nat
deriving DecidableEq, Repr

/-- The five statically bound textures `__tex_image_float4_3d_000` … `__tex_image_float4_3d_004`
named by `volume_image_texture_3d`. -/
inductive TexImageFloat4_3D where
  | tex_000
  | tex_001
  | tex_002
  | tex_003
  | tex_004
deriving DecidableEq, Repr, Fintype

/-- The number in the name of a statically bound texture. -/
def TexImageFloat4_3D.index : TexImageFloat4_3D → Int
  | .tex_000 => 0
  | .tex_001 => 1
  | .tex_002 => 2
  | .tex_003 => 3
  | .tex_004 => 4

/-- The preprocessor symbols that select the code of `geom_volume.h`. -/
structure BuildConfig where
  /-- The symbol `__KERNEL_CUDA__` is defined. -/
  KERNEL_CUDA : Bool
  /-- The value of `__CUDA_ARCH__`. -/
  CUDA_ARCH : Nat
  /-- The symbol `__KERNEL_OPENCL__` is defined. -/
  KERNEL_OPENCL : Bool
deriving DecidableEq, Repr

/-- Everything `geom_volume.h` uses and does not define: named constants, the attribute and
transform collaborators, and the samplers of each backend.  `K` is `KernelGlobals`.

The source uses the one name `kernel_tex_image_interp_3d` for three different backend
primitives; they are three fields here:
`kernel_tex_image_interp_3d` (CUDA below arch 300, applied to a named texture),
`kernel_tex_image_interp_3d_cl` (OpenCL, applied to `kg` and an id) and
`kernel_tex_image_interp_3d_cpu` (the CPU macro of the branch disabled by `#if 1`). -/
structure Externals (K F : Type) where
  ATTR_STD_GENERATED_TRANSFORM : Int
  ATTR_STD_NOT_FOUND : Int
  SD_VOLUME_CUBIC : Nat
  INTERPOLATION_CUBIC : Int
  OPENVDB_SAMPLE_POINT : Int
  find_attribute : K → ShaderData F → Int → AttributeDescriptor
  /-- The source passes `&P` and the callee overwrites it; the new `P` is returned here. -/
  object_inverse_position_transform : K → ShaderData F → float3 F → float3 F
  primitive_attribute_matrix : K → ShaderData F → AttributeDescriptor → Transform F
  transform_point : Transform F → float3 F → float3 F
  /-- The table read by `kernel_tex_fetch(__bindless_mapping, i)`; a `CUtexObject` is a number. -/
  bindless_mapping : Int → Nat
  kernel_tex_image_interp_3d_float : Nat → F → F → F → F
  kernel_tex_image_interp_3d_float4 : Nat → F → F → F → float4 F
  kernel_tex_image_interp_3d : TexImageFloat4_3D → F → F → F → float4 F
  kernel_tex_image_interp_3d_cl : K → Int → F → F → F → float4 F
  kernel_tex_voxel_float : Int → F → F → F → Int → F
  kernel_tex_voxel_float3 : Int → F → F → F → Int → float3 F
  kernel_tex_image_interp_3d_cpu : Int → F → F → F → float4 F
  kernel_tex_image_interp_3d_ex : Int → F → F → F → Int → float4 F

/-- What one sample call leaves behind: the returned value (`none` when the source returns a
local no branch assigned) and the content of the caller's derivative slots after the call
(`none` for a null pointer). -/
structure SampleResult (V : Type) where
  ret : Option V
  dx : Option V
  dy : Option V
deriving DecidableEq, Repr

/-- Modelled from the spec: `make_float3` is defined outside `geom_volume.h`; it builds the
vector of its three arguments. -/
def make_float3 {F : Type} (x y z : F) : float3 F :=
  ⟨x, y, z⟩

/-- Modelled from the spec: `float4_to_float3` is defined outside `geom_volume.h`; the spec says
the first three channels are kept in order and the fourth is discarded. -/
def float4_to_float3 {F : Type} (a : float4 F) : float3 F :=
  ⟨a.x, a.y, a.z⟩

/-- Modelled from the spec: `average` is defined outside `geom_volume.h`; the spec says the
scalar is the unweighted average `(r+g+b)/3` of the three channels. -/
def average {F : Type} [Add F] [Div F] [OfNat F 3] (a : float3 F) : F :=
  (a.x + a.y + a.z) / 3

/-- Source `volume_image_texture_3d` (lines 36–49, compiled for CUDA below arch 300): a `switch`
over `id` with cases 0 to 4 and no `default`; the local `r` stays unassigned otherwise. -/
def volume_image_texture_3d {K F : Type} (X : Externals K F) (id : Int) (x y z : F) :
    Option (float4 F) :=
  if id = 0 then some (X.kernel_tex_image_interp_3d .tex_000 x y z)
  else if id = 1 then some (X.kernel_tex_image_interp_3d .tex_001 x y z)
  else if id = 2 then some (X.kernel_tex_image_interp_3d .tex_002 x y z)
  else if id = 3 then some (X.kernel_tex_image_interp_3d .tex_003 x y z)
  else if id = 4 then some (X.kernel_tex_image_interp_3d .tex_004 x y z)
  else none

/-- Source `volume_normalized_position` (lines 51–67). -/
def volume_normalized_position {K F : Type} (X : Externals K F) (kg : K) (sd : ShaderData F)
    (P : float3 F) : float3 F :=
  let desc := X.find_attribute kg sd X.ATTR_STD_GENERATED_TRANSFORM
  let P := X.object_inverse_position_transform kg sd P
  if desc.offset ≠ X.ATTR_STD_NOT_FOUND then
    let tfm := X.primitive_attribute_matrix kg sd desc
    X.transform_point tfm P
  else
    P

/-- Source `volume_attribute_float` (lines 69–104).  The `#if 1` of line 87 is the literal
condition `1 ≠ 0`, with the disabled branch kept as its `else`. -/
def volume_attribute_float {K F : Type} [Add F] [Div F] [OfNat F 0] [OfNat F 3]
    (cfg : BuildConfig) (X : Externals K F) (kg : K) (sd : ShaderData F)
    (desc : AttributeDescriptor) (dx dy : Option F) : SampleResult F :=
  let r : Option F :=
    if cfg.KERNEL_CUDA then
      if 300 ≤ cfg.CUDA_ARCH then
        let P := volume_normalized_position X kg sd sd.P
        let tex := X.bindless_mapping desc.offset
        some (X.kernel_tex_image_interp_3d_float tex P.x P.y P.z)
      else
        let P := volume_normalized_position X kg sd sd.P
        (volume_image_texture_3d X desc.offset P.x P.y P.z).map
          (fun c => average (float4_to_float3 c))
    else if cfg.KERNEL_OPENCL then
      let P := volume_normalized_position X kg sd sd.P
      some (average (float4_to_float3 (X.kernel_tex_image_interp_3d_cl kg desc.offset P.x P.y P.z)))
    else
      if (1 : Nat) ≠ 0 then
        let P := sd.P
        some (X.kernel_tex_voxel_float desc.offset P.x P.y P.z X.OPENVDB_SAMPLE_POINT)
      else
        let P := volume_normalized_position X kg sd sd.P
        if sd.flag &&& X.SD_VOLUME_CUBIC ≠ 0 then
          some (average (float4_to_float3
            (X.kernel_tex_image_interp_3d_ex desc.offset P.x P.y P.z X.INTERPOLATION_CUBIC)))
        else
          some (average (float4_to_float3
            (X.kernel_tex_image_interp_3d_cpu desc.offset P.x P.y P.z)))
  { ret := r
    dx := dx.map (fun _ => (0 : F))
    dy := dy.map (fun _ => (0 : F)) }

/-- Source `volume_attribute_float3` (lines 106–141).  The `#if 1` of line 124 is the literal
condition `1 ≠ 0`, with the disabled branch kept as its `else`. -/
def volume_attribute_float3 {K F : Type} [OfNat F 0]
    (cfg : BuildConfig) (X : Externals K F) (kg : K) (sd : ShaderData F)
    (desc : AttributeDescriptor) (dx dy : Option (float3 F)) : SampleResult (float3 F) :=
  let r : Option (float3 F) :=
    if cfg.KERNEL_CUDA then
      if 300 ≤ cfg.CUDA_ARCH then
        let P := volume_normalized_position X kg sd sd.P
        let tex := X.bindless_mapping desc.offset
        some (float4_to_float3 (X.kernel_tex_image_interp_3d_float4 tex P.x P.y P.z))
      else
        let P := volume_normalized_position X kg sd sd.P
        (volume_image_texture_3d X desc.offset P.x P.y P.z).map float4_to_float3
    else if cfg.KERNEL_OPENCL then
      let P := volume_normalized_position X kg sd sd.P
      some (float4_to_float3 (X.kernel_tex_image_interp_3d_cl kg desc.offset P.x P.y P.z))
    else
      if (1 : Nat) ≠ 0 then
        let P := sd.P
        some (X.kernel_tex_voxel_float3 desc.offset P.x P.y P.z X.OPENVDB_SAMPLE_POINT)
      else
        let P := volume_normalized_position X kg sd sd.P
        if sd.flag &&& X.SD_VOLUME_CUBIC ≠ 0 then
          some (float4_to_float3
            (X.kernel_tex_image_interp_3d_ex desc.offset P.x P.y P.z X.INTERPOLATION_CUBIC))
        else
          some (float4_to_float3 (X.kernel_tex_image_interp_3d_cpu desc.offset P.x P.y P.z))
  { ret := r
    dx := dx.map (fun _ => make_float3 (0 : F) 0 0)
    dy := dy.map (fun _ => make_float3 (0 : F) 0 0) }

/-! ## Concrete environments used to evaluate the definitions -/

/-- The usual affine action of a 4×4 matrix with rows `x`, `y`, `z` on a point, over `ℚ`. -/
def affine_point (t : Transform ℚ) (P : float3 ℚ) : float3 ℚ :=
  ⟨t.x.x * P.x + t.x.y * P.y + t.x.z * P.z + t.x.w,
   t.y.x * P.x + t.y.y * P.y + t.y.z * P.z + t.y.w,
   t.z.x * P.x + t.z.y * P.y + t.z.z * P.z + t.z.w⟩

/-- The matrix that doubles every coordinate. -/
def scale_two : Transform ℚ :=
  ⟨⟨2, 0, 0, 0⟩, ⟨0, 2, 0, 0⟩, ⟨0, 0, 2, 0⟩, ⟨0, 0, 0, 1⟩⟩

/-- An environment over `ℚ` whose stores are uniformly filled.

* Shading points with `other = 0` sit on an object with identity inverse transform and no
  generated-coordinates attribute; `other = 1` has the inverse transform `P ↦ P - (1,1,1)` and
  no attribute; `other ≥ 2` has that inverse transform and the attribute, with matrix
  `scale_two`.
* Every 4-channel store holds `(1/5, 2/5, 3/5, 1)` everywhere; the voxel colour grid holds
  `(1/5, 2/5, 3/5)`.
* The scalar sampler of a bindless texture returns `1/5` (the first channel) and the scalar
  voxel grid holds the density `1/2`. -/
def uniformStore : Externals Unit ℚ where
  ATTR_STD_GENERATED_TRANSFORM := 10
  ATTR_STD_NOT_FOUND := -1
  SD_VOLUME_CUBIC := 524288
  INTERPOLATION_CUBIC := 3
  OPENVDB_SAMPLE_POINT := 0
  find_attribute := fun _ sd id =>
    if id = 10 ∧ 2 ≤ sd.other then ⟨7, 0⟩ else ⟨-1, 0⟩
  object_inverse_position_transform := fun _ sd P =>
    if sd.other = 0 then P else ⟨P.x - 1, P.y - 1, P.z - 1⟩
  primitive_attribute_matrix := fun _ _ _ => scale_two
  transform_point := affine_point
  bindless_mapping := fun i => i.natAbs + 100
  kernel_tex_image_interp_3d_float := fun _ _ _ _ => 1 / 5
  kernel_tex_image_interp_3d_float4 := fun _ _ _ _ => ⟨1 / 5, 2 / 5, 3 / 5, 1⟩
  kernel_tex_image_interp_3d := fun _ _ _ _ => ⟨1 / 5, 2 / 5, 3 / 5, 1⟩
  kernel_tex_image_interp_3d_cl := fun _ _ _ _ _ => ⟨1 / 5, 2 / 5, 3 / 5, 1⟩
  kernel_tex_voxel_float := fun _ _ _ _ _ => 1 / 2
  kernel_tex_voxel_float3 := fun _ _ _ _ _ => ⟨1 / 5, 2 / 5, 3 / 5⟩
  kernel_tex_image_interp_3d_cpu := fun _ _ _ _ => ⟨1 / 5, 2 / 5, 3 / 5, 1⟩
  kernel_tex_image_interp_3d_ex := fun _ _ _ _ _ => ⟨1 / 5, 2 / 5, 3 / 5, 1⟩

/-- The environment `uniformStore` with stores that echo the sampled position: a 4-channel fetch
at `(x, y, z)` returns `(x, y, z, h)` with `h` the handle it was given, a scalar fetch returns
`x + h`, and the voxel samplers add the sample policy to the handle. -/
def echoStore : Externals Unit ℚ :=
  { uniformStore with
    kernel_tex_image_interp_3d_float := fun tex x _ _ => x + tex
    kernel_tex_image_interp_3d_float4 := fun tex x y z => ⟨x, y, z, tex⟩
    kernel_tex_image_interp_3d := fun s x y z => ⟨x, y, z, s.index⟩
    kernel_tex_image_interp_3d_cl := fun _ id x y z => ⟨x, y, z, id⟩
    kernel_tex_voxel_float := fun id x _ _ pol => x + id + pol
    kernel_tex_voxel_float3 := fun id x y z pol => ⟨x + id + pol, y, z⟩
    kernel_tex_image_interp_3d_cpu := fun id x y z => ⟨x, y, z, id⟩
    kernel_tex_image_interp_3d_ex := fun id x y z pol => ⟨x, y, z, id + pol⟩ }

/-- Build for CUDA at arch 520: the bindless-handle strategy. -/
def cfgBindless : BuildConfig := ⟨true, 520, false⟩

/-- Build for CUDA at arch 210: the fixed-slot strategy. -/
def cfgFixedSlot : BuildConfig := ⟨true, 210, false⟩

/-- Build for OpenCL. -/
def cfgOpenCL : BuildConfig := ⟨false, 0, true⟩

/-- Build for the CPU: the sparse voxel-grid strategy. -/
def cfgVoxel : BuildConfig := ⟨false, 0, false⟩

/-! ## Position normalizer -/

/-- C1: when `find_attribute(kg, sd, ATTR_STD_GENERATED_TRANSFORM)` returns a descriptor whose
offset is not `ATTR_STD_NOT_FOUND`, `volume_normalized_position(kg, sd, P)` is
`transform_point(T, inv P)` with `inv P` the result of `object_inverse_position_transform` on `P`
and `T = primitive_attribute_matrix(kg, sd, desc)`: inverse-object transform first,
generated-coordinates transform second. -/
theorem volume_normalized_position_generated {K F : Type} (X : Externals K F) (kg : K)
    (sd : ShaderData F) (P : float3 F)
    (h : (X.find_attribute kg sd X.ATTR_STD_GENERATED_TRANSFORM).offset ≠ X.ATTR_STD_NOT_FOUND) :
    volume_normalized_position X kg sd P =
      X.transform_point
        (X.primitive_attribute_matrix kg sd
          (X.find_attribute kg sd X.ATTR_STD_GENERATED_TRANSFORM))
        (X.object_inverse_position_transform kg sd P) := by
  unfold volume_normalized_position
  simp only [ne_eq, h, not_false_eq_true, if_true]

/-- Witness for C1 in `uniformStore` at a shading point carrying the attribute: the position
`(3, 5, 9)` goes to `2 * ((3, 5, 9) - (1, 1, 1)) = (4, 8, 16)`, which is not what the transforms
give in the other order, `2 * (3, 5, 9) - (1, 1, 1) = (5, 9, 17)`. -/
theorem volume_normalized_position_generated_witness :
    (uniformStore.find_attribute () ⟨⟨3, 5, 9⟩, 0, 2⟩
        uniformStore.ATTR_STD_GENERATED_TRANSFORM).offset ≠ uniformStore.ATTR_STD_NOT_FOUND ∧
    volume_normalized_position uniformStore () ⟨⟨3, 5, 9⟩, 0, 2⟩ ⟨3, 5, 9⟩ =
      uniformStore.transform_point
        (uniformStore.primitive_attribute_matrix () ⟨⟨3, 5, 9⟩, 0, 2⟩
          (uniformStore.find_attribute () ⟨⟨3, 5, 9⟩, 0, 2⟩
            uniformStore.ATTR_STD_GENERATED_TRANSFORM))
        (uniformStore.object_inverse_position_transform () ⟨⟨3, 5, 9⟩, 0, 2⟩ ⟨3, 5, 9⟩) ∧
    volume_normalized_position uniformStore () ⟨⟨3, 5, 9⟩, 0, 2⟩ ⟨3, 5, 9⟩ = ⟨4, 8, 16⟩ ∧
    uniformStore.object_inverse_position_transform () ⟨⟨3, 5, 9⟩, 0, 2⟩
      (uniformStore.transform_point scale_two ⟨3, 5, 9⟩) = ⟨5, 9, 17⟩ :=
  ⟨by simp [uniformStore],
   volume_normalized_position_generated uniformStore () ⟨⟨3, 5, 9⟩, 0, 2⟩ ⟨3, 5, 9⟩
     (by simp [uniformStore]),
   by norm_num [volume_normalized_position, uniformStore, affine_point, scale_two],
   by norm_num [uniformStore, affine_point, scale_two]⟩

/-- C2: when no generated-coordinates transform attribute is declared (`find_attribute` returns
the offset `ATTR_STD_NOT_FOUND`), `volume_normalized_position(kg, sd, P)` is exactly the
object-inverse-transformed `P`; in particular it is `P` itself when the object's inverse
position transform leaves `P` where it is. -/
theorem volume_normalized_position_pass_through {K F : Type} (X : Externals K F) (kg : K)
    (sd : ShaderData F) (P : float3 F)
    (h : (X.find_attribute kg sd X.ATTR_STD_GENERATED_TRANSFORM).offset = X.ATTR_STD_NOT_FOUND) :
    volume_normalized_position X kg sd P = X.object_inverse_position_transform kg sd P ∧
    (X.object_inverse_position_transform kg sd P = P →
      volume_normalized_position X kg sd P = P) := by
  have key : volume_normalized_position X kg sd P =
      X.object_inverse_position_transform kg sd P := by
    unfold volume_normalized_position
    simp only [ne_eq, h, not_true_eq_false, if_false]
  exact ⟨key, fun hid => key.trans hid⟩

/-- Witness for C2 in `uniformStore`: at a shading point without the attribute and with the
inverse transform `P ↦ P - (1,1,1)` the position `(3, 5, 9)` goes to `(2, 4, 8)`; at a shading
point without the attribute and with identity inverse transform it stays `(3, 5, 9)`. -/
theorem volume_normalized_position_pass_through_witness :
    (uniformStore.find_attribute () ⟨⟨3, 5, 9⟩, 0, 1⟩
        uniformStore.ATTR_STD_GENERATED_TRANSFORM).offset = uniformStore.ATTR_STD_NOT_FOUND ∧
    volume_normalized_position uniformStore () ⟨⟨3, 5, 9⟩, 0, 1⟩ ⟨3, 5, 9⟩ = ⟨2, 4, 8⟩ ∧
    (uniformStore.find_attribute () ⟨⟨3, 5, 9⟩, 0, 0⟩
        uniformStore.ATTR_STD_GENERATED_TRANSFORM).offset = uniformStore.ATTR_STD_NOT_FOUND ∧
    uniformStore.object_inverse_position_transform () ⟨⟨3, 5, 9⟩, 0, 0⟩ ⟨3, 5, 9⟩ = ⟨3, 5, 9⟩ ∧
    volume_normalized_position uniformStore () ⟨⟨3, 5, 9⟩, 0, 0⟩ ⟨3, 5, 9⟩ = ⟨3, 5, 9⟩ :=
  ⟨by simp [uniformStore],
   ((volume_normalized_position_pass_through uniformStore () ⟨⟨3, 5, 9⟩, 0, 1⟩ ⟨3, 5, 9⟩
      (by simp [uniformStore])).1).trans (by norm_num [uniformStore]),
   by simp [uniformStore],
   by simp [uniformStore],
   (volume_normalized_position_pass_through uniformStore () ⟨⟨3, 5, 9⟩, 0, 0⟩ ⟨3, 5, 9⟩
      (by simp [uniformStore])).2 (by simp [uniformStore])⟩

/-! ## Channel reduction -/

/-- C3, as stated, fails: the scalar entry point is not the average of the stored channels in
every strategy.  In `uniformStore` every 4-channel texture holds `(1/5, 2/5, 3/5, 1)` and the
voxel colour grid holds `(1/5, 2/5, 3/5)`, yet under the bindless build
`volume_attribute_float` returns `1/5`, what `kernel_tex_image_interp_3d_float` gives, and under
the voxel build it returns `1/2`, what `kernel_tex_voxel_float` gives; neither is
`(1/5 + 2/5 + 3/5) / 3`. -/
theorem volume_attribute_float_scalar_sampler_not_average :
    (uniformStore.kernel_tex_image_interp_3d_float4 (uniformStore.bindless_mapping 7)
        (volume_normalized_position uniformStore () ⟨⟨3, 5, 9⟩, 0, 0⟩ ⟨3, 5, 9⟩).x
        (volume_normalized_position uniformStore () ⟨⟨3, 5, 9⟩, 0, 0⟩ ⟨3, 5, 9⟩).y
        (volume_normalized_position uniformStore () ⟨⟨3, 5, 9⟩, 0, 0⟩ ⟨3, 5, 9⟩).z
      = ⟨1 / 5, 2 / 5, 3 / 5, 1⟩ ∧
     (volume_attribute_float cfgBindless uniformStore () ⟨⟨3, 5, 9⟩, 0, 0⟩ ⟨7, 0⟩
        none none).ret = some (1 / 5) ∧
     (volume_attribute_float cfgBindless uniformStore () ⟨⟨3, 5, 9⟩, 0, 0⟩ ⟨7, 0⟩
        none none).ret ≠ some ((1 / 5 + 2 / 5 + 3 / 5) / 3)) ∧
    (uniformStore.kernel_tex_voxel_float3 7 3 5 9 uniformStore.OPENVDB_SAMPLE_POINT
      = ⟨1 / 5, 2 / 5, 3 / 5⟩ ∧
     (volume_attribute_float cfgVoxel uniformStore () ⟨⟨3, 5, 9⟩, 0, 0⟩ ⟨7, 0⟩
        none none).ret = some (1 / 2) ∧
     (volume_attribute_float cfgVoxel uniformStore () ⟨⟨3, 5, 9⟩, 0, 0⟩ ⟨7, 0⟩
        none none).ret ≠ some ((1 / 5 + 2 / 5 + 3 / 5) / 3)) := by
  refine ⟨⟨by simp [uniformStore], ?_, ?_⟩, ⟨by simp [uniformStore], ?_, ?_⟩⟩ <;>
    norm_num [volume_attribute_float, cfgBindless, cfgVoxel, uniformStore]

/-- C3, amended: in the fixed-slot strategy (CUDA below arch 300) and in the OpenCL strategy,
for every 4-channel value `(r, g, b, a)` fetched at the sampled location,
`volume_attribute_float` returns `(r + g + b) / 3`, whatever `a` is. -/
theorem volume_attribute_float_average {K F : Type} [Add F] [Div F] [OfNat F 0] [OfNat F 3]
    (cfg : BuildConfig) (X : Externals K F) (kg : K) (sd : ShaderData F)
    (desc : AttributeDescriptor) (dx dy : Option F) (r g b a : F)
    (h : (cfg.KERNEL_CUDA = true ∧ cfg.CUDA_ARCH < 300 ∧
            volume_image_texture_3d X desc.offset
              (volume_normalized_position X kg sd sd.P).x
              (volume_normalized_position X kg sd sd.P).y
              (volume_normalized_position X kg sd sd.P).z = some ⟨r, g, b, a⟩) ∨
         (cfg.KERNEL_CUDA = false ∧ cfg.KERNEL_OPENCL = true ∧
            X.kernel_tex_image_interp_3d_cl kg desc.offset
              (volume_normalized_position X kg sd sd.P).x
              (volume_normalized_position X kg sd sd.P).y
              (volume_normalized_position X kg sd sd.P).z = ⟨r, g, b, a⟩)) :
    (volume_attribute_float cfg X kg sd desc dx dy).ret = some ((r + g + b) / 3) := by
  rcases h with ⟨hc, ha, hv⟩ | ⟨hc, ho, hv⟩
  · have ha' : ¬ 300 ≤ cfg.CUDA_ARCH := Nat.not_le.mpr ha
    simp [volume_attribute_float, hc, ha', hv, average, float4_to_float3]
  · simp [volume_attribute_float, hc, ho, hv, average, float4_to_float3]

/-- Witness for C3 (amended): a fixed-slot store filled with `(1/5, 2/5, 3/5, 1)` gives
`(1/5 + 2/5 + 3/5) / 3`, which is `2/5`. -/
theorem volume_attribute_float_average_witness :
    (cfgFixedSlot.KERNEL_CUDA = true ∧ cfgFixedSlot.CUDA_ARCH < 300 ∧
      volume_image_texture_3d uniformStore 2
        (volume_normalized_position uniformStore () ⟨⟨3, 5, 9⟩, 0, 2⟩ ⟨3, 5, 9⟩).x
        (volume_normalized_position uniformStore () ⟨⟨3, 5, 9⟩, 0, 2⟩ ⟨3, 5, 9⟩).y
        (volume_normalized_position uniformStore () ⟨⟨3, 5, 9⟩, 0, 2⟩ ⟨3, 5, 9⟩).z
        = some ⟨1 / 5, 2 / 5, 3 / 5, 1⟩) ∧
    (volume_attribute_float cfgFixedSlot uniformStore () ⟨⟨3, 5, 9⟩, 0, 2⟩ ⟨2, 0⟩
      none none).ret = some ((1 / 5 + 2 / 5 + 3 / 5) / 3) ∧
    ((1 / 5 + 2 / 5 + 3 / 5) / 3 : ℚ) = 2 / 5 :=
  ⟨by simp [cfgFixedSlot, volume_image_texture_3d, uniformStore],
   volume_attribute_float_average cfgFixedSlot uniformStore () ⟨⟨3, 5, 9⟩, 0, 2⟩ ⟨2, 0⟩
     none none (1 / 5) (2 / 5) (3 / 5) 1
     (Or.inl (by simp [cfgFixedSlot, volume_image_texture_3d, uniformStore])),
   by norm_num⟩

/-- C5: under every build configuration, for every shading point, descriptor and prior content
of the slots, a derivative slot the caller supplies holds `0.0` after
`volume_attribute_float` and `(0, 0, 0)` after `volume_attribute_float3`; the value written
depends on nothing else. -/
theorem volume_attribute_derivatives_zero {K F : Type} [Add F] [Div F] [OfNat F 0] [OfNat F 3]
    (cfg : BuildConfig) (X : Externals K F) (kg : K) (sd : ShaderData F)
    (desc : AttributeDescriptor) (v w : F) (v3 w3 : float3 F)
    (dx dy : Option F) (dx3 dy3 : Option (float3 F)) :
    (volume_attribute_float cfg X kg sd desc (some v) dy).dx = some 0 ∧
    (volume_attribute_float cfg X kg sd desc dx (some w)).dy = some 0 ∧
    (volume_attribute_float3 cfg X kg sd desc (some v3) dy3).dx = some ⟨0, 0, 0⟩ ∧
    (volume_attribute_float3 cfg X kg sd desc dx3 (some w3)).dy = some ⟨0, 0, 0⟩ := by
  simp [volume_attribute_float, volume_attribute_float3, make_float3]

/-! ## Backend dispatch -/

/-- C6: in the sparse voxel-grid strategy (neither CUDA nor OpenCL) `volume_attribute_float`
returns `kernel_tex_voxel_float(desc.offset, sd.P.x, sd.P.y, sd.P.z, OPENVDB_SAMPLE_POINT)` and
`volume_attribute_float3` returns `kernel_tex_voxel_float3` of the same arguments: the position
is the raw `sd.P`, the policy is the point policy, and replacing the attribute lookup, the
object inverse transform, the generated-coordinates matrix or the point transform changes
nothing in the outcome. -/
theorem volume_attribute_voxel_raw_position {K F : Type} [Add F] [Div F] [OfNat F 0]
    [OfNat F 3] (cfg : BuildConfig) (X : Externals K F) (kg : K) (sd : ShaderData F)
    (desc : AttributeDescriptor) (dx dy : Option F) (dx3 dy3 : Option (float3 F))
    (hc : cfg.KERNEL_CUDA = false) (ho : cfg.KERNEL_OPENCL = false) :
    (volume_attribute_float cfg X kg sd desc dx dy).ret =
      some (X.kernel_tex_voxel_float desc.offset sd.P.x sd.P.y sd.P.z X.OPENVDB_SAMPLE_POINT) ∧
    (volume_attribute_float3 cfg X kg sd desc dx3 dy3).ret =
      some (X.kernel_tex_voxel_float3 desc.offset sd.P.x sd.P.y sd.P.z X.OPENVDB_SAMPLE_POINT) ∧
    (∀ (find : K → ShaderData F → Int → AttributeDescriptor)
       (inv : K → ShaderData F → float3 F → float3 F)
       (mat : K → ShaderData F → AttributeDescriptor → Transform F)
       (tp : Transform F → float3 F → float3 F),
      volume_attribute_float cfg
          { X with find_attribute := find, object_inverse_position_transform := inv,
                   primitive_attribute_matrix := mat, transform_point := tp }
          kg sd desc dx dy
        = volume_attribute_float cfg X kg sd desc dx dy ∧
      volume_attribute_float3 cfg
          { X with find_attribute := find, object_inverse_position_transform := inv,
                   primitive_attribute_matrix := mat, transform_point := tp }
          kg sd desc dx3 dy3
        = volume_attribute_float3 cfg X kg sd desc dx3 dy3) := by
  refine ⟨?_, ?_, ?_⟩
  · simp [volume_attribute_float, hc, ho]
  · simp [volume_attribute_float3, hc, ho]
  · intro find inv mat tp
    constructor
    · simp [volume_attribute_float, hc, ho]
    · simp [volume_attribute_float3, hc, ho]

/-- Witness for C6 in `echoStore` under the voxel build: at the shading point `(3, 5, 9)` of an
object that carries both an inverse transform and the generated-coordinates attribute, grid 7
is sampled at the raw `(3, 5, 9)`: the scalar is `3 + 7 + 0` and the vector `(10, 5, 9)`. -/
theorem volume_attribute_voxel_raw_position_witness :
    cfgVoxel.KERNEL_CUDA = false ∧ cfgVoxel.KERNEL_OPENCL = false ∧
    volume_normalized_position echoStore () ⟨⟨3, 5, 9⟩, 0, 2⟩ ⟨3, 5, 9⟩ = ⟨4, 8, 16⟩ ∧
    (volume_attribute_float cfgVoxel echoStore () ⟨⟨3, 5, 9⟩, 0, 2⟩ ⟨7, 0⟩ none none).ret
      = some 10 ∧
    (volume_attribute_float3 cfgVoxel echoStore () ⟨⟨3, 5, 9⟩, 0, 2⟩ ⟨7, 0⟩ none none).ret
      = some ⟨10, 5, 9⟩ :=
  ⟨rfl, rfl,
   by norm_num [volume_normalized_position, echoStore, uniformStore, affine_point, scale_two],
   ((volume_attribute_voxel_raw_position cfgVoxel echoStore () ⟨⟨3, 5, 9⟩, 0, 2⟩ ⟨7, 0⟩
      none none none none rfl rfl).1).trans (by norm_num [echoStore, uniformStore]),
   ((volume_attribute_voxel_raw_position cfgVoxel echoStore () ⟨⟨3, 5, 9⟩, 0, 2⟩ ⟨7, 0⟩
      none none none none rfl rfl).2.1).trans (by norm_num [echoStore, uniformStore])⟩

/-- C7: under CUDA both entry points sample at `volume_normalized_position(kg, sd, sd.P)` with a
handle computed from `desc.offset` alone.  From arch 300 on (bindless) the texture is
`kernel_tex_fetch(__bindless_mapping, desc.offset)`, read by
`kernel_tex_image_interp_3d_float` and `kernel_tex_image_interp_3d_float4`; below arch 300
(fixed slot) both read `volume_image_texture_3d(desc.offset, P.x, P.y, P.z)`.  This holds for
every descriptor: the offset is not compared with `ATTR_STD_NOT_FOUND` first. -/
theorem volume_attribute_cuda_normalized {K F : Type} [Add F] [Div F] [OfNat F 0] [OfNat F 3]
    (cfg : BuildConfig) (X : Externals K F) (kg : K) (sd : ShaderData F)
    (desc : AttributeDescriptor) (dx dy : Option F) (dx3 dy3 : Option (float3 F))
    (hc : cfg.KERNEL_CUDA = true) :
    (300 ≤ cfg.CUDA_ARCH →
      (volume_attribute_float cfg X kg sd desc dx dy).ret =
        some (X.kernel_tex_image_interp_3d_float (X.bindless_mapping desc.offset)
          (volume_normalized_position X kg sd sd.P).x
          (volume_normalized_position X kg sd sd.P).y
          (volume_normalized_position X kg sd sd.P).z) ∧
      (volume_attribute_float3 cfg X kg sd desc dx3 dy3).ret =
        some (float4_to_float3
          (X.kernel_tex_image_interp_3d_float4 (X.bindless_mapping desc.offset)
            (volume_normalized_position X kg sd sd.P).x
            (volume_normalized_position X kg sd sd.P).y
            (volume_normalized_position X kg sd sd.P).z))) ∧
    (cfg.CUDA_ARCH < 300 →
      (volume_attribute_float cfg X kg sd desc dx dy).ret =
        (volume_image_texture_3d X desc.offset
          (volume_normalized_position X kg sd sd.P).x
          (volume_normalized_position X kg sd sd.P).y
          (volume_normalized_position X kg sd sd.P).z).map
          (fun c => average (float4_to_float3 c)) ∧
      (volume_attribute_float3 cfg X kg sd desc dx3 dy3).ret =
        (volume_image_texture_3d X desc.offset
          (volume_normalized_position X kg sd sd.P).x
          (volume_normalized_position X kg sd sd.P).y
          (volume_normalized_position X kg sd sd.P).z).map float4_to_float3) := by
  constructor
  · intro ha
    simp [volume_attribute_float, volume_attribute_float3, hc, ha]
  · intro ha
    have ha' : ¬ 300 ≤ cfg.CUDA_ARCH := Nat.not_le.mpr ha
    simp [volume_attribute_float, volume_attribute_float3, hc, ha']

/-- Witness for C7 in `echoStore`, at the shading point `(3, 5, 9)` whose normalized position is
`(4, 8, 16)`.  Bindless build, descriptor with the not-found offset `-1`: the table gives
texture `bindless_mapping (-1) = 101` and the vector sample is the normalized position
`(4, 8, 16)`, not the raw one.  Fixed-slot build, offset 2: the vector sample is again
`(4, 8, 16)`. -/
theorem volume_attribute_cuda_normalized_witness :
    cfgBindless.KERNEL_CUDA = true ∧ 300 ≤ cfgBindless.CUDA_ARCH ∧
    echoStore.ATTR_STD_NOT_FOUND = -1 ∧
    (volume_attribute_float cfgBindless echoStore () ⟨⟨3, 5, 9⟩, 0, 2⟩ ⟨-1, 0⟩
      none none).ret = some (4 + 101) ∧
    (volume_attribute_float3 cfgBindless echoStore () ⟨⟨3, 5, 9⟩, 0, 2⟩ ⟨-1, 0⟩
      none none).ret = some ⟨4, 8, 16⟩ ∧
    cfgFixedSlot.KERNEL_CUDA = true ∧ cfgFixedSlot.CUDA_ARCH < 300 ∧
    (volume_attribute_float3 cfgFixedSlot echoStore () ⟨⟨3, 5, 9⟩, 0, 2⟩ ⟨2, 0⟩
      none none).ret = some ⟨4, 8, 16⟩ :=
  ⟨rfl, by decide, rfl,
   (((volume_attribute_cuda_normalized cfgBindless echoStore () ⟨⟨3, 5, 9⟩, 0, 2⟩ ⟨-1, 0⟩
      none none none none rfl).1 (by decide)).1).trans
     (by norm_num [volume_normalized_position, echoStore, uniformStore, affine_point,
       scale_two]),
   (((volume_attribute_cuda_normalized cfgBindless echoStore () ⟨⟨3, 5, 9⟩, 0, 2⟩ ⟨-1, 0⟩
      (none : Option ℚ) none none none rfl).1 (by decide)).2).trans
     (by norm_num [volume_normalized_position, echoStore, uniformStore, affine_point,
       scale_two, float4_to_float3]),
   rfl, by decide,
   (((volume_attribute_cuda_normalized cfgFixedSlot echoStore () ⟨⟨3, 5, 9⟩, 0, 2⟩ ⟨2, 0⟩
      (none : Option ℚ) none none none rfl).2 (by decide)).2).trans
     (by norm_num [volume_normalized_position, volume_image_texture_3d, echoStore,
       uniformStore, affine_point, scale_two, float4_to_float3])⟩

/-- C8: under every build configuration, two shading points that differ only in the
`SD_VOLUME_CUBIC` bit of `flag` give the same outcome of `volume_attribute_float` and of
`volume_attribute_float3`, return value and derivative slots alike.  A strategy ignores the
filtering mode when it is the voxel strategy, which never hands `sd` to anyone, or when its
collaborators (`find_attribute`, `object_inverse_position_transform`,
`primitive_attribute_matrix`) answer alike at the two points; this file itself never reads the
flag in compiled code. -/
theorem volume_attribute_ignores_cubic_flag {K F : Type} [Add F] [Div F] [OfNat F 0]
    [OfNat F 3] (cfg : BuildConfig) (X : Externals K F) (kg : K) (sd : ShaderData F)
    (desc : AttributeDescriptor) (dx dy : Option F) (dx3 dy3 : Option (float3 F))
    (h : (cfg.KERNEL_CUDA = false ∧ cfg.KERNEL_OPENCL = false) ∨
         (X.find_attribute kg { sd with flag := sd.flag ^^^ X.SD_VOLUME_CUBIC }
              X.ATTR_STD_GENERATED_TRANSFORM
            = X.find_attribute kg sd X.ATTR_STD_GENERATED_TRANSFORM ∧
          (∀ P, X.object_inverse_position_transform kg
                  { sd with flag := sd.flag ^^^ X.SD_VOLUME_CUBIC } P
                = X.object_inverse_position_transform kg sd P) ∧
          (∀ d, X.primitive_attribute_matrix kg
                  { sd with flag := sd.flag ^^^ X.SD_VOLUME_CUBIC } d
                = X.primitive_attribute_matrix kg sd d))) :
    volume_attribute_float cfg X kg { sd with flag := sd.flag ^^^ X.SD_VOLUME_CUBIC }
        desc dx dy
      = volume_attribute_float cfg X kg sd desc dx dy ∧
    volume_attribute_float3 cfg X kg { sd with flag := sd.flag ^^^ X.SD_VOLUME_CUBIC }
        desc dx3 dy3
      = volume_attribute_float3 cfg X kg sd desc dx3 dy3 := by
  rcases h with ⟨hc, ho⟩ | ⟨hf, hi, hm⟩
  · simp [volume_attribute_float, volume_attribute_float3, hc, ho]
  · have hP : volume_normalized_position X kg
          { sd with flag := sd.flag ^^^ X.SD_VOLUME_CUBIC } sd.P
        = volume_normalized_position X kg sd sd.P := by
      simp only [volume_normalized_position, hf, hi, hm]
    simp only [volume_attribute_float, volume_attribute_float3, hP]
    simp

/-- Witness for C8 in `echoStore` under the bindless build: the shading point `(3, 5, 9)` with
the cubic bit set (`flag = 524288`) and with it cleared (`flag = 0`) give the same outcome. -/
theorem volume_attribute_ignores_cubic_flag_witness :
    (0 : Nat) ^^^ echoStore.SD_VOLUME_CUBIC = 524288 ∧
    volume_attribute_float cfgBindless echoStore () ⟨⟨3, 5, 9⟩, 524288, 2⟩ ⟨7, 0⟩
        (some 1) (some 2)
      = volume_attribute_float cfgBindless echoStore () ⟨⟨3, 5, 9⟩, 0, 2⟩ ⟨7, 0⟩
        (some 1) (some 2) ∧
    volume_attribute_float3 cfgBindless echoStore () ⟨⟨3, 5, 9⟩, 524288, 2⟩ ⟨7, 0⟩
        (some ⟨1, 1, 1⟩) none
      = volume_attribute_float3 cfgBindless echoStore () ⟨⟨3, 5, 9⟩, 0, 2⟩ ⟨7, 0⟩
        (some ⟨1, 1, 1⟩) none :=
  ⟨by decide,
   volume_attribute_ignores_cubic_flag cfgBindless echoStore () ⟨⟨3, 5, 9⟩, 0, 2⟩ ⟨7, 0⟩
     (some 1) (some 2) (some ⟨1, 1, 1⟩) none
     (Or.inr (by simp [echoStore, uniformStore]))⟩

/-- C9: for every `id` from 0 to 4, `volume_image_texture_3d(id, x, y, z)` is defined and is the
interpolated fetch at `(x, y, z)` from the statically bound texture numbered `id`; there are
exactly five such textures, with distinct numbers; for every other `id` no `case` assigns the
result and no defined value is produced. -/
theorem volume_image_texture_3d_slots {K F : Type} (X : Externals K F) (x y z : F) :
    (∀ id : Int, 0 ≤ id → id ≤ 4 →
      ∃ s : TexImageFloat4_3D, s.index = id ∧
        volume_image_texture_3d X id x y z = some (X.kernel_tex_image_interp_3d s x y z)) ∧
    (∀ id : Int, id < 0 ∨ 4 < id → volume_image_texture_3d X id x y z = none) ∧
    Fintype.card TexImageFloat4_3D = 5 ∧
    Function.Injective TexImageFloat4_3D.index := by
  refine ⟨?_, ?_, rfl, ?_⟩
  · intro id h0 h4
    have hcases : id = 0 ∨ id = 1 ∨ id = 2 ∨ id = 3 ∨ id = 4 := by omega
    rcases hcases with h | h | h | h | h
    · exact ⟨.tex_000, by simp [TexImageFloat4_3D.index, h], by
        simp [volume_image_texture_3d, h]⟩
    · exact ⟨.tex_001, by simp [TexImageFloat4_3D.index, h], by
        simp [volume_image_texture_3d, h]⟩
    · exact ⟨.tex_002, by simp [TexImageFloat4_3D.index, h], by
        simp [volume_image_texture_3d, h]⟩
    · exact ⟨.tex_003, by simp [TexImageFloat4_3D.index, h], by
        simp [volume_image_texture_3d, h]⟩
    · exact ⟨.tex_004, by simp [TexImageFloat4_3D.index, h], by
        simp [volume_image_texture_3d, h]⟩
  · intro id h
    have h0 : id ≠ 0 := by omega
    have h1 : id ≠ 1 := by omega
    have h2 : id ≠ 2 := by omega
    have h3 : id ≠ 3 := by omega
    have h4 : id ≠ 4 := by omega
    simp [volume_image_texture_3d, h0, h1, h2, h3, h4]
  · intro a b hab
    cases a <;> cases b <;> simp [TexImageFloat4_3D.index] at hab ⊢

/-- Witness for C9 in `echoStore`, whose fixed-slot fetch returns the position and the number of
the texture it read: `id = 2` reads texture 002, while `id = 5` and `id = -1` produce no defined
value. -/
theorem volume_image_texture_3d_slots_witness :
    (0 : Int) ≤ 2 ∧ (2 : Int) ≤ 4 ∧
    volume_image_texture_3d echoStore 2 4 8 16 = some ⟨4, 8, 16, 2⟩ ∧
    ((5 : Int) < 0 ∨ (4 : Int) < 5) ∧
    volume_image_texture_3d echoStore 5 4 8 16 = none ∧
    ((-1 : Int) < 0 ∨ (4 : Int) < -1) ∧
    volume_image_texture_3d echoStore (-1) 4 8 16 = none :=
  ⟨by decide, by decide,
   by
    obtain ⟨s, hs, hv⟩ :=
      (volume_image_texture_3d_slots echoStore 4 8 16).1 2 (by decide) (by decide)
    rw [hv]
    simp [echoStore, hs],
   by decide,
   (volume_image_texture_3d_slots echoStore 4 8 16).2.1 5 (by decide),
   by decide,
   (volume_image_texture_3d_slots echoStore 4 8 16).2.1 (-1) (by decide)⟩

/-- C10: in the fixed-slot strategy and in the OpenCL strategy the scalar entry point is the
`average` of the vector entry point: `volume_attribute_float(kg, sd, desc)` is the unweighted
average of the three components of `volume_attribute_float3(kg, sd, desc)`, both being computed
from one 4-channel fetch at the same handle and the same normalized position. -/
theorem volume_attribute_float_average_of_float3 {K F : Type} [Add F] [Div F] [OfNat F 0]
    [OfNat F 3] (cfg : BuildConfig) (X : Externals K F) (kg : K) (sd : ShaderData F)
    (desc : AttributeDescriptor) (dx dy : Option F) (dx3 dy3 : Option (float3 F))
    (h : (cfg.KERNEL_CUDA = true ∧ cfg.CUDA_ARCH < 300) ∨
         (cfg.KERNEL_CUDA = false ∧ cfg.KERNEL_OPENCL = true)) :
    (volume_attribute_float cfg X kg sd desc dx dy).ret =
      (volume_attribute_float3 cfg X kg sd desc dx3 dy3).ret.map average := by
  rcases h with ⟨hc, ha⟩ | ⟨hc, ho⟩
  · have ha' : ¬ 300 ≤ cfg.CUDA_ARCH := Nat.not_le.mpr ha
    simp [volume_attribute_float, volume_attribute_float3, hc, ha', average, float4_to_float3,
      Option.map_map, Function.comp_def]
  · simp [volume_attribute_float, volume_attribute_float3, hc, ho, average, float4_to_float3]

/-- Witness for C10 in `echoStore` under the OpenCL build: at the normalized position
`(4, 8, 16)` the vector sample is `(4, 8, 16)` and the scalar sample is `(4 + 8 + 16) / 3`.
Under the bindless build of `uniformStore` the scalar `1/5` is not the average of the vector
`(1/5, 2/5, 3/5)`. -/
theorem volume_attribute_float_average_of_float3_witness :
    ((cfgOpenCL.KERNEL_CUDA = true ∧ cfgOpenCL.CUDA_ARCH < 300) ∨
      (cfgOpenCL.KERNEL_CUDA = false ∧ cfgOpenCL.KERNEL_OPENCL = true)) ∧
    (volume_attribute_float3 cfgOpenCL echoStore () ⟨⟨3, 5, 9⟩, 0, 2⟩ ⟨7, 0⟩
      none none).ret = some ⟨4, 8, 16⟩ ∧
    (volume_attribute_float cfgOpenCL echoStore () ⟨⟨3, 5, 9⟩, 0, 2⟩ ⟨7, 0⟩
      none none).ret = some ((4 + 8 + 16) / 3) ∧
    (volume_attribute_float cfgBindless uniformStore () ⟨⟨3, 5, 9⟩, 0, 2⟩ ⟨7, 0⟩
      none none).ret ≠
      (volume_attribute_float3 cfgBindless uniformStore () ⟨⟨3, 5, 9⟩, 0, 2⟩ ⟨7, 0⟩
        none none).ret.map average := by
  have hv : (volume_attribute_float3 cfgOpenCL echoStore () ⟨⟨3, 5, 9⟩, 0, 2⟩ ⟨7, 0⟩
      none none).ret = some ⟨4, 8, 16⟩ := by
    norm_num [volume_attribute_float3, volume_normalized_position, cfgOpenCL, echoStore,
      uniformStore, affine_point, scale_two, float4_to_float3]
  refine ⟨Or.inr ⟨rfl, rfl⟩, hv, ?_, ?_⟩
  · rw [volume_attribute_float_average_of_float3 cfgOpenCL echoStore () ⟨⟨3, 5, 9⟩, 0, 2⟩
      ⟨7, 0⟩ none none none none (Or.inr ⟨rfl, rfl⟩), hv]
    rfl
  · norm_num [volume_attribute_float, volume_attribute_float3, cfgBindless, uniformStore,
      float4_to_float3, average]

end Cycles
